import Mathlib

/-!
Shallow embedding of `airflow/dags/ingestion/ask-astro-load.py`
(the `ask_astro_load_bulk` DAG) and verification of its specification.

Python dataframes are modelled as Lists of structures, machine floats used
for slack timestamps as Nat (only their ordering and equality matter to the
code under verification), fallible code as Except, and the third-party
functions the DAG delegates to (html2text, datetime rendering,
generate_uuid5) as explicit function parameters, since their behaviour is
not part of this repository.
-/

namespace AskAstroLoad

/-- Characters removed by Python `str.strip()` (ASCII whitespace). -/
def pyWhitespace : List Char := [' ', '\t', '\n', '\r', '\x0b', '\x0c']

/-- Model of Python `str.strip()`. -/
def pyStrip (s : String) : String :=
  String.mk (((s.data.dropWhile (fun c => c ∈ pyWhitespace)).reverse.dropWhile
      (fun c => c ∈ pyWhitespace)).reverse)

/-- `leadsWith l pat` : `l` starts with `pat`. -/
def leadsWith : List Char → List Char → Bool
  | _, [] => true
  | [], _ :: _ => false
  | a :: as, b :: bs => a == b && leadsWith as bs

/-- `hasSubL l pat` : `pat` occurs contiguously inside `l` (Python `pat in l`). -/
def hasSubL : List Char → List Char → Bool
  | [], pat => pat.isEmpty
  | c :: rest, pat => leadsWith (c :: rest) pat || hasSubL rest pat

/-- Python's `in` operator on strings. -/
def hasSub (s pat : String) : Bool := hasSubL s.data pat.data

/-- Fuel-driven worker for `pySplit` (Python `str.split(sep)` / `re.split` on an
escaped separator); `acc` is the current piece, reversed. -/
def splitOnAux (sep : List Char) : Nat → List Char → List Char → List (List Char)
  | 0, acc, rest => [acc.reverse ++ rest]
  | _ + 1, acc, [] => [acc.reverse]
  | fuel + 1, acc, c :: cs =>
    if leadsWith (c :: cs) sep then
      acc.reverse :: splitOnAux sep fuel [] ((c :: cs).drop sep.length)
    else
      splitOnAux sep fuel (c :: acc) cs

/-- Model of Python `text.split(sep)` for a non-empty separator `sep`. -/
def pySplit (text sep : String) : List String :=
  (splitOnAux sep.data (text.data.length + 1) [] text.data).map String.mk

/-! ### The delegated third-party text splitter

Modelled from the spec: §1 of the spec states the executing chunking code is
"(b) a generic recursive text splitter" delegated to a third-party library;
line 608 of the source instantiates it with default parameters
(`RecursiveCharacterTextSplitter()`), whose source is not part of this
repository.  The model below renders that splitter: default separators
`["\n\n", "\n", " ", ""]`, chunk size 4000, chunk overlap 200, length
function `String.length`, separators dropped when splitting, merged chunks
re-joined with the separator and stripped, empty results discarded. -/

/-- Chunk size of the delegated splitter (third-party default). -/
def rctsChunkSize : Nat := 4000

/-- Chunk overlap of the delegated splitter (third-party default). -/
def rctsChunkOverlap : Nat := 200

/-- Default separator list of the delegated splitter. -/
def rctsSeparators : List String := ["\n\n", "\n", " ", ""]

/-- Pick the first separator occurring in `text` (the empty separator always
matches); returns the chosen separator and the remaining separators used for
recursive re-splitting of oversized pieces. -/
def chooseSep (text : String) : List String → String × List String
  | [] => ("", [])
  | [s] => if s = "" then ("", []) else (s, [])
  | s :: s2 :: rest =>
    if s = "" then ("", [])
    else if hasSub text s then (s, s2 :: rest)
    else chooseSep text (s2 :: rest)

/-- Split `text` at `sep` (characterwise for the empty separator), dropping
empty pieces. -/
def splitPieces (text sep : String) : List String :=
  (if sep = "" then text.data.map (fun c => String.mk [c]) else pySplit text sep).filter
    (fun s => s ≠ "")

/-- Join pieces with the separator and strip; an all-whitespace result is
discarded. -/
def joinDocs (docs : List String) (sep : String) : Option String :=
  let text := pyStrip (String.intercalate sep docs)
  if text = "" then none else some text

/-- The splitter's overlap loop: pop pieces from the front of the running
window until it fits under the overlap/chunk-size bounds. -/
def mergeWhile (sepLen dLen : Nat) : Nat → List String → Nat → List String × Nat
  | 0, cur, total => (cur, total)
  | fuel + 1, cur, total =>
    if total > rctsChunkOverlap ∨
        (total + dLen + (if cur.length > 0 then sepLen else 0) > rctsChunkSize ∧ total > 0) then
      match cur with
      | [] => ([], total)
      | c :: rest =>
        mergeWhile sepLen dLen fuel rest (total - (c.length + (if rest.length > 0 then sepLen else 0)))
    else (cur, total)

/-- One step of the splitter's merge loop over the small pieces; the state is
(emitted chunks, running window, running window length). -/
def mergeStep (sep : String) (st : List String × List String × Nat) (d : String) :
    List String × List String × Nat :=
  let docs := st.1
  let cur := st.2.1
  let total := st.2.2
  let dLen := d.length
  let sepLen := sep.length
  let next :=
    if total + dLen + (if cur.length > 0 then sepLen else 0) > rctsChunkSize then
      if cur.length > 0 then
        let docs2 :=
          match joinDocs cur sep with
          | some doc => docs ++ [doc]
          | none => docs
        let cw := mergeWhile sepLen dLen (cur.length + 1) cur total
        (docs2, cw.1, cw.2)
      else (docs, cur, total)
    else (docs, cur, total)
  let cur3 := next.2.1 ++ [d]
  (next.1, cur3, next.2.2 + dLen + (if cur3.length > 1 then sepLen else 0))

/-- Merge small pieces back into chunks of at most the chunk size. -/
def mergeSplits (splits : List String) (sep : String) : List String :=
  let st := splits.foldl (mergeStep sep) ([], [], 0)
  match joinDocs st.2.1 sep with
  | some doc => st.1 ++ [doc]
  | none => st.1

/-- Recursive splitting: choose a separator, split, merge undersized pieces,
re-split oversized pieces with the remaining separators.  `fuel` bounds the
recursion depth (which the separator list already bounds by 4). -/
def rctsSplitText : Nat → String → List String → List String
  | 0, text, _ => [text]
  | fuel + 1, text, separators =>
    let sn := chooseSep text separators
    let sep := sn.1
    let newSeps := sn.2
    let splits := splitPieces text sep
    let step : List String × List String → String → List String × List String := fun st s =>
      if s.length < rctsChunkSize then (st.1, st.2 ++ [s])
      else
        let final2 := if st.2.length > 0 then st.1 ++ mergeSplits st.2 sep else st.1
        if newSeps.isEmpty then (final2 ++ [s], [])
        else (final2 ++ rctsSplitText fuel s newSeps, [])
    let res := splits.foldl step ([], [])
    if res.2.length > 0 then res.1 ++ mergeSplits res.2 sep else res.1

/-- The splitter the DAG delegates chunking to: split a document's text into
chunks (source line 608-609). -/
def rctsSplit (text : String) : List String :=
  rctsSplitText (rctsSeparators.length + 1) text rctsSeparators

/-! ### Data model of the DAG -/

/-- A row of a source dataframe handed to `split_data`: the flat record shape
`docSource`/`sha`/`docLink`/`content` with the optional `header` column
(`none` models an absent column). -/
structure RawDoc where
  docSource : String
  sha : String
  docLink : String
  content : String
  header : Option String := none
deriving DecidableEq

/-- A row of the dataframe produced by `split_data` (after `doc_chunks` and
`header` are dropped). -/
structure SplitDoc where
  docSource : String
  sha : String
  docLink : String
  content : String
deriving DecidableEq

/-- A row of the archived slack snapshot after the column selection on source
line 440: `user`, `text`, `ts`, `thread_ts`, `client_msg_id`, `type`.
Timestamps (floats in the source) are modelled as Nat; `thread_ts` is
nullable. -/
structure SlackMsg where
  user : String
  text : String
  ts : Nat
  thread_ts : Option Nat
  client_msg_id : String
  type : String
deriving DecidableEq

/-- An element of `slack_channel_sources`. -/
structure SlackSource where
  channel_name : String
  channel_id : String
  team_id : String
  team_name : String
deriving DecidableEq

/-- The exception raised by the weaviate count query; `status_code := none`
models an exception object without a `status_code` attribute. -/
structure WeaviateError where
  status_code : Option Nat
  message : String
deriving DecidableEq

/-- The keyword arguments `import_data` returns for the weaviate import
(source line 642). -/
structure ImportArgs where
  data : List (SplitDoc × String)
  class_name : String
  uuid_column : String
  batch_size : Nat
  error_threshold : Nat
deriving DecidableEq

/-- The module-level target-count dict `weaviate_doc_count` (source line 69). -/
def weaviate_doc_count : List (String × Nat) := [("Docs", 7307)]

/-! ### Orchestration branching -/

/-- `recreate_schema_branch` (source lines 88-96): branch on schema
existence. -/
def recreate_schema_branch (schema_exists : Bool) : Option (List String) :=
  if schema_exists then some ["check_object_count"]
  else if schema_exists = false then some ["create_schema"]
  else none

/-- The seven downstream extract task ids returned by `check_object_count`
(source lines 113-119). -/
def extract_task_ids : List String :=
  ["extract_github_markdown", "extract_github_rst", "extract_github_python",
   "extract_stack_overflow", "extract_slack", "extract_registry",
   "extract_github_issues"]

/-- `check_object_count` (source lines 98-119).  The count query either
returns the count reported for the class (`Except.ok`) or raises
(`Except.error`).  A raised error is assigned `response = None` only when its
`status_code` is 422 and its message contains "no graphql provider present";
any other exception leaves `response` unbound (or has no `status_code`
attribute), so the task itself fails, modelled as `Except.error ()`.
`Except.ok none` is the branch skipping all extraction; `Except.ok (some ids)`
runs the listed tasks. -/
def check_object_count (doc_count : List (String × Nat)) (class_name : String)
    (queryResult : Except WeaviateError Nat) : Except Unit (Option (List String)) :=
  match queryResult with
  | .ok count =>
    match doc_count.lookup class_name with
    | none => .error ()
    | some target =>
      if count ≥ target then .ok none
      else .ok (some extract_task_ids)
  | .error e =>
    if e.status_code = some 422 ∧ hasSub e.message "no graphql provider present" then
      .ok (some extract_task_ids)
    else .error ()

/-! ### Extract tasks

All commented-out download/normalization code is dead; what executes is
parquet snapshot loading (modelled as the `snapshot` parameter), plus for
stack overflow / issues a row-wise `generate_uuid5` sha column, plus for
slack the thread-aggregation pipeline of source lines 440-466.  The
third-party `generate_uuid5` and `datetime.fromtimestamp` are passed in as
functions. -/

/-- `extract_github_markdown` (source line 171): return the snapshot. -/
def extract_github_markdown (snapshot : List RawDoc) : List RawDoc := snapshot

/-- `extract_github_rst` (source line 235): return the snapshot. -/
def extract_github_rst (snapshot : List RawDoc) : List RawDoc := snapshot

/-- `extract_github_python` (source line 287): return the snapshot. -/
def extract_github_python (snapshot : List RawDoc) : List RawDoc := snapshot

/-- `extract_registry` (source line 560): return the snapshot. -/
def extract_registry (snapshot : List RawDoc) : List RawDoc := snapshot

/-- `extract_stack_overflow` (source lines 414-417): load the snapshot and set
a row-wise `sha` via `generate_uuid5` (passed as `uuidRow`). -/
def extract_stack_overflow (uuidRow : RawDoc → String) (snapshot : List RawDoc) : List RawDoc :=
  snapshot.map (fun r => { r with sha := uuidRow r })

/-- `extract_github_issues` (source lines 530-533): load the snapshot and set
a row-wise `sha` via `generate_uuid5` (passed as `uuidRow`). -/
def extract_github_issues (uuidRow : RawDoc → String) (snapshot : List RawDoc) : List RawDoc :=
  snapshot.map (fun r => { r with sha := uuidRow r })

/-- Worker for `firstDedup`: keep the first occurrence of every element
(pandas `drop_duplicates`). -/
def firstDedupAux [DecidableEq α] : List α → List α → List α
  | _, [] => []
  | seen, x :: xs =>
    if x ∈ seen then firstDedupAux seen xs
    else x :: firstDedupAux (x :: seen) xs

/-- Model of pandas `drop_duplicates`: keep the first occurrence of every
row, preserving order. -/
def firstDedup [DecidableEq α] (l : List α) : List α := firstDedupAux [] l

/-- The python f-string `reply_md_format` (source line 437). -/
def reply_md_format (ts user text : String) : String :=
  "### [" ++ ts ++ "] <@" ++ user ++ ">\n\n" ++ text

/-- The python f-string `message_md_format` (source line 436). -/
def message_md_format (team_name channel_name content : String) : String :=
  "# slack: " ++ team_name ++ "\n\n## " ++ channel_name ++ "\n\n" ++ content

/-- The python f-string `link_format` (source line 438). -/
def link_format (team_id channel_id ts : String) : String :=
  "https://app.slack.com/client/" ++ team_id ++ "/" ++ channel_id ++ "/p" ++ ts

/-- Python `str(x)` of the float `thread_ts`, for Nat-modelled timestamps. -/
def floatStr (n : Nat) : String := toString n ++ ".0"

/-- `str(x).replace('.', '')` (source line 461). -/
def dotRemoved (s : String) : String := String.mk (s.data.filter (fun c => c ≠ '.'))

/-- Source line 447: `df['thread_ts'].fillna(value=df.ts)` for one row. -/
def slack_fill (r : SlackMsg) : SlackMsg :=
  { r with thread_ts := some (r.thread_ts.getD r.ts) }

/-- Source lines 440-447: select the six columns, `drop_duplicates`, and fill
missing `thread_ts` with the row's own `ts`. -/
def slack_rows (snapshot : List SlackMsg) : List SlackMsg :=
  (firstDedup snapshot).map slack_fill

/-- Source line 453, `sort_values('ts')`: the frame sorted ascending by
`ts`. -/
def slack_sorted (snapshot : List SlackMsg) : List SlackMsg :=
  (slack_rows snapshot).insertionSort (fun a b => a.ts ≤ b.ts)

/-- Source line 453, `groupby('thread_ts')`: the distinct thread keys in
ascending order (pandas `groupby` sorts the group keys). -/
def slack_keys (snapshot : List SlackMsg) : List Nat :=
  (firstDedup ((slack_sorted snapshot).map (fun r => r.thread_ts.getD r.ts))).insertionSort
    (fun a b => a ≤ b)

/-- Source lines 449-466 for one thread key: format each message of the
thread with `reply_md_format` (`tsFmt` models `datetime.fromtimestamp`),
join the group's contents with a newline in the sorted frame's order, wrap
with `message_md_format`, build `docLink` from the thread key and `sha` from
the content (`uuidGen` models `generate_uuid5`). -/
def slack_record (tsFmt : Nat → String) (uuidGen : String → String) (source : SlackSource)
    (snapshot : List SlackMsg) (k : Nat) : RawDoc :=
  let content := message_md_format source.team_name source.channel_name
    (String.intercalate "\n"
      (((slack_sorted snapshot).filter (fun r => r.thread_ts.getD r.ts = k)).map
        (fun r => reply_md_format (tsFmt r.ts) r.user r.text)))
  { docSource := source.channel_name,
    sha := uuidGen content,
    docLink := link_format source.team_id source.channel_id (dotRemoved (floatStr k)),
    content := content,
    header := none }

/-- `extract_slack` (source lines 419-468): one aggregated record per
distinct thread key, returning the columns `docSource, sha, content,
docLink`. -/
def extract_slack (tsFmt : Nat → String) (uuidGen : String → String)
    (source : SlackSource) (snapshot : List SlackMsg) : List RawDoc :=
  (slack_keys snapshot).map (slack_record tsFmt uuidGen source snapshot)

instance : IsTotal SlackMsg (fun a b => a.ts ≤ b.ts) :=
  ⟨fun a b => Nat.le_total a.ts b.ts⟩

instance : IsTrans SlackMsg (fun a b => a.ts ≤ b.ts) :=
  ⟨fun _ _ _ h1 h2 => Nat.le_trans h1 h2⟩

/-! ### split_data and import_data -/

/-- `x.replace('\n', ' ')` on the rendered chunk (source line 614). -/
def nlToSpace (s : String) : String :=
  String.mk (s.data.map (fun c => if c = '\n' then ' ' else c))

/-- `x.replace('\\', '')` (source line 615). -/
def dropBackslashes (s : String) : String :=
  String.mk (s.data.filter (fun c => c ≠ '\\'))

/-- The records a single source document contributes to the output of
`split_data`: one per chunk of its content, with the chunk rendered by
`html2text` (the `renderer` parameter), newlines replaced by spaces and
backslashes removed. -/
def split_row (renderer : String → String) (d : RawDoc) : List SplitDoc :=
  (rctsSplit d.content).map (fun c =>
    { docSource := d.docSource, sha := d.sha, docLink := d.docLink,
      content := dropBackslashes (nlToSpace (renderer c)) })

/-- `split_data` (source lines 564-622): concatenate the per-source frame
lists and the seven sources (in the source's order line 592-599), chunk each
document's content with the delegated splitter, keep only rows with at least
one chunk, explode to one row per chunk, post-process each chunk's text with
`html2text` (`renderer`) / newline replacement / backslash removal, and drop
the `doc_chunks` and `header` columns (the output shape `SplitDoc` has
neither). -/
def split_data (renderer : String → String)
    (md_dfs rst_dfs slack_dfs stackoverflow_dfs code_dfs issues_dfs reg_dfs :
      List (List RawDoc)) : List SplitDoc :=
  let df := md_dfs.flatten ++ rst_dfs.flatten ++ slack_dfs.flatten ++ reg_dfs.flatten ++
    code_dfs.flatten ++ stackoverflow_dfs.flatten ++ issues_dfs.flatten
  let withChunks := df.map (fun d => (d, rctsSplit d.content))
  let filtered := withChunks.filter (fun p => p.2.length > 0)
  let exploded := filtered.flatMap (fun p => p.2.map (fun c => (p.1, c)))
  exploded.map (fun p =>
    { docSource := p.1.docSource, sha := p.1.sha, docLink := p.1.docLink,
      content := dropBackslashes (nlToSpace (renderer p.2)) })

/-- `x.to_dict()` for a row of the frame `import_data` receives. -/
def toDict (r : SplitDoc) : List (String × String) :=
  [("docSource", r.docSource), ("sha", r.sha), ("docLink", r.docLink),
   ("content", r.content)]

/-- `import_data` (source lines 624-642): concatenate the input frames (a
single one here, as in the source), compute `uuid = generate_uuid5(x.to_dict())`
for every row (`uuidGen`), and return the import keyword arguments. -/
def import_data (uuidGen : List (String × String) → String) (md_docs : List SplitDoc)
    (class_name : String) : ImportArgs :=
  let df := [md_docs].flatten
  { data := df.map (fun x => (x, uuidGen (toDict x))),
    class_name := class_name,
    uuid_column := "uuid",
    batch_size := 1000,
    error_threshold := 12 }

/-- A chunk line beginning a markdown header. -/
def isHeaderLine (l : String) : Bool := leadsWith l.data ['#']

/-- Follows the spec's words, for comparison with the splitter the code uses:
"recursive text splitting by header level" / "splits markdown content on
markdown headers" — split a markdown text so that each markdown header line
starts a new chunk. -/
def header_level_split (s : String) : List String :=
  let ls := pySplit s "\n"
  let st := ls.foldl
    (fun (st : List (List String) × List String) line =>
      if isHeaderLine line ∧ st.2 ≠ [] then (st.1 ++ [st.2], [line])
      else (st.1, st.2 ++ [line]))
    ([], [])
  (if st.2 = [] then st.1 else st.1 ++ [st.2]).map (String.intercalate "\n")

/-- Modelled from the spec: an extract task that, per §1, "only reads
pre-computed snapshots from disk" and returns them unchanged. -/
def extract_snapshot_only (snapshot : List SlackMsg) : List SlackMsg := snapshot

/-- Erase the optional `header` column of a source record. -/
def eraseHeader (r : RawDoc) : RawDoc := { r with header := none }

/-! ### Concrete fixtures used to instantiate the theorems -/

/-- An example slack channel source, shaped like `slack_channel_sources[0]`. -/
def slackSrcEx : SlackSource :=
  { channel_name := "troubleshooting", channel_id := "CCQ", team_id := "TCQ",
    team_name := "Airflow" }

/-- An example slack message with no `thread_ts` (a thread root). -/
def slackM1 : SlackMsg :=
  { user := "u1", text := "hello", ts := 5, thread_ts := none, client_msg_id := "a",
    type := "message" }

/-- An example slack reply inside the thread rooted at timestamp 5. -/
def slackM2 : SlackMsg :=
  { user := "u2", text := "world", ts := 3, thread_ts := some 5, client_msg_id := "b",
    type := "message" }

/-! ## Helper lemmas -/

theorem mem_firstDedupAux [DecidableEq α] (l : List α) (seen : List α) (a : α) :
    a ∈ firstDedupAux seen l ↔ a ∈ l ∧ a ∉ seen := by
  induction l generalizing seen with
  | nil => simp [firstDedupAux]
  | cons x xs ih =>
    by_cases hx : x ∈ seen
    · rw [firstDedupAux, if_pos hx, ih]
      constructor
      · rintro ⟨h1, h2⟩; exact ⟨List.mem_cons_of_mem _ h1, h2⟩
      · rintro ⟨h1, h2⟩
        rcases List.mem_cons.mp h1 with h | h
        · exact absurd (h ▸ hx) h2
        · exact ⟨h, h2⟩
    · rw [firstDedupAux, if_neg hx]
      simp only [List.mem_cons, ih, List.mem_cons]
      constructor
      · rintro (rfl | ⟨h1, h2⟩)
        · exact ⟨Or.inl rfl, hx⟩
        · exact ⟨Or.inr h1, fun hs => h2 (Or.inr hs)⟩
      · rintro ⟨rfl | h1, h2⟩
        · exact Or.inl rfl
        · by_cases hax : a = x
          · exact Or.inl hax
          · exact Or.inr ⟨h1, fun hs => (hs.elim hax h2 : False)⟩

theorem mem_firstDedup [DecidableEq α] (l : List α) (a : α) :
    a ∈ firstDedup l ↔ a ∈ l := by
  simp [firstDedup, mem_firstDedupAux]

theorem nodup_firstDedupAux [DecidableEq α] (l : List α) (seen : List α) :
    (firstDedupAux seen l).Nodup := by
  induction l generalizing seen with
  | nil => simp [firstDedupAux]
  | cons x xs ih =>
    by_cases hx : x ∈ seen
    · rw [firstDedupAux, if_pos hx]; exact ih seen
    · rw [firstDedupAux, if_neg hx]
      refine List.nodup_cons.mpr ⟨fun hmem => ?_, ih (x :: seen)⟩
      exact ((mem_firstDedupAux xs (x :: seen) x).mp hmem).2 (List.mem_cons_self x seen)

theorem nodup_firstDedup [DecidableEq α] (l : List α) : (firstDedup l).Nodup :=
  nodup_firstDedupAux l []

theorem length_firstDedup [DecidableEq α] (l : List α) :
    (firstDedup l).length = l.toFinset.card := by
  have h1 : (firstDedup l).toFinset = l.toFinset := by
    ext a; simp [List.mem_toFinset, mem_firstDedup]
  rw [← h1, List.toFinset_card_of_nodup (nodup_firstDedup l)]

/-! ## The claims -/

/-- C1: for every count response from the vector index, `check_object_count`
returns None (skipping all extraction) exactly when the reported count for
the class is at least the target in `weaviate_doc_count` for that class;
otherwise it returns the list of all seven extract task ids. -/
theorem check_object_count_skips_iff (doc_count : List (String × Nat))
    (class_name : String) (count target : Nat)
    (h : doc_count.lookup class_name = some target) :
    (check_object_count doc_count class_name (.ok count) = .ok none ↔ count ≥ target)
    ∧ (count < target →
        check_object_count doc_count class_name (.ok count) = .ok (some extract_task_ids)) := by
  unfold check_object_count
  rw [h]
  constructor
  · by_cases hc : count ≥ target
    · simp [hc]
    · simp [hc]
  · intro hc
    simp [Nat.not_le.mpr hc]

/-- Witness for C1 at the concrete dict `weaviate_doc_count`: a count of 7306
is below the target 7307 and runs the extract tasks. -/
theorem check_object_count_skips_iff_witness :
    (check_object_count weaviate_doc_count "Docs" (.ok 7306) = .ok none ↔ 7306 ≥ 7307)
    ∧ (7306 < 7307 →
        check_object_count weaviate_doc_count "Docs" (.ok 7306) = .ok (some extract_task_ids)) :=
  check_object_count_skips_iff weaviate_doc_count "Docs" 7306 7307 (by decide)

/-- C3 counterexample: an exception from the count query whose status code is
500 (and one without a `status_code` attribute at all) is not handled: the
task fails (`Except.error ()`) instead of returning the extract task list. -/
theorem check_object_count_unhandled_error_cex :
    check_object_count weaviate_doc_count "Docs" (.error ⟨some 500, "server error"⟩)
      = .error ()
    ∧ check_object_count weaviate_doc_count "Docs" (.error ⟨none, "connection reset"⟩)
      = .error () :=
  ⟨rfl, rfl⟩

/-- C3 (amended): only an exception with status code 422 whose message
contains "no graphql provider present" is caught and treated as "index not
yet created", making the task return the list of extract task ids; every
other exception makes the task fail. -/
theorem check_object_count_handles_graphql_absent (doc_count : List (String × Nat))
    (class_name : String) (e : WeaviateError)
    (h422 : e.status_code = some 422)
    (hmsg : hasSub e.message "no graphql provider present" = true) :
    check_object_count doc_count class_name (.error e) = .ok (some extract_task_ids) := by
  unfold check_object_count
  simp [h422, hmsg]

/-- Witness for the amended C3: a 422 "no graphql provider present" error
runs the extract tasks. -/
theorem check_object_count_handles_graphql_absent_witness :
    check_object_count weaviate_doc_count "Docs"
        (.error ⟨some 422, "status 422: no graphql provider present on class"⟩)
      = .ok (some extract_task_ids) :=
  check_object_count_handles_graphql_absent weaviate_doc_count "Docs"
    ⟨some 422, "status 422: no graphql provider present on class"⟩ rfl (by decide)

/-- C8: `recreate_schema_branch` selects `check_object_count` exactly when
the schema exists and `create_schema` exactly when it does not, so schema
creation is never selected when the schema already exists. -/
theorem recreate_schema_branch_cases :
    (∀ b : Bool, recreate_schema_branch b = some ["check_object_count"] ↔ b = true)
    ∧ (∀ b : Bool, recreate_schema_branch b = some ["create_schema"] ↔ b = false) := by
  decide

/-- C2: the uuid `import_data` computes for a record is
`generate_uuid5` of the record's field dict, hence a function of the record's
field values only: records with equal fields get equal uuids in every run. -/
theorem import_data_uuid_deterministic (uuidGen : List (String × String) → String)
    (docs : List SplitDoc) (class_name : String) (r : SplitDoc) (u : String)
    (hmem : (r, u) ∈ (import_data uuidGen docs class_name).data) :
    u = uuidGen (toDict r)
    ∧ ∀ r' : SplitDoc, r'.docSource = r.docSource → r'.sha = r.sha →
        r'.docLink = r.docLink → r'.content = r.content →
        uuidGen (toDict r') = uuidGen (toDict r) := by
  constructor
  · unfold import_data at hmem
    simp only [List.flatten, List.append_nil, List.mem_map] at hmem
    obtain ⟨x, _, hx⟩ := hmem
    obtain ⟨rfl, rfl⟩ := Prod.mk.injEq .. ▸ hx
    rfl
  · intro r' h1 h2 h3 h4
    have : r' = r := by cases r'; cases r; simp_all
    rw [this]

/-- Witness for C2 at a concrete generator and frame. -/
theorem import_data_uuid_deterministic_witness :
    "a,b,c,d" = String.intercalate ","
        ((toDict ⟨"a", "b", "c", "d"⟩).map Prod.snd)
    ∧ ∀ r' : SplitDoc, r'.docSource = "a" → r'.sha = "b" → r'.docLink = "c" →
        r'.content = "d" →
        String.intercalate "," ((toDict r').map Prod.snd)
          = String.intercalate "," ((toDict ⟨"a", "b", "c", "d"⟩).map Prod.snd) :=
  import_data_uuid_deterministic (fun l => String.intercalate "," (l.map Prod.snd))
    [⟨"a", "b", "c", "d"⟩] "Docs" ⟨"a", "b", "c", "d"⟩ "a,b,c,d" (by decide)

theorem filter_explode_eq_flatMap (f : RawDoc → List String) (g : RawDoc → String → SplitDoc)
    (l : List RawDoc) :
    ((((l.map (fun d => (d, f d))).filter (fun p => p.2.length > 0)).flatMap
        (fun p => p.2.map (fun c => (p.1, c)))).map (fun p => g p.1 p.2))
      = l.flatMap (fun d => (f d).map (g d)) := by
  induction l with
  | nil => rfl
  | cons d rest ih =>
    simp only [List.map_cons, List.filter_cons, List.flatMap_cons]
    by_cases h : (f d).length > 0
    · rw [if_pos (by simpa using h)]
      simp only [List.flatMap_cons, List.map_append, List.map_map, ih]
      rfl
    · have hf : f d = [] := List.length_eq_zero.mp (Nat.eq_zero_of_not_pos h)
      rw [if_neg (by simp [hf])]
      simp [hf, ih]

theorem split_data_eq_bind (renderer : String → String)
    (md rst slack so code issues reg : List (List RawDoc)) :
    split_data renderer md rst slack so code issues reg
      = (md.flatten ++ rst.flatten ++ slack.flatten ++ reg.flatten ++ code.flatten ++
          so.flatten ++ issues.flatten).flatMap (split_row renderer) := by
  unfold split_data split_row
  exact filter_explode_eq_flatMap (fun d => rctsSplit d.content)
    (fun d c => { docSource := d.docSource, sha := d.sha, docLink := d.docLink,
                  content := dropBackslashes (nlToSpace (renderer c)) }) _

theorem split_row_eraseHeader (renderer : String → String) (d : RawDoc) :
    split_row renderer (eraseHeader d) = split_row renderer d := rfl

theorem flatMap_split_row_of_eraseHeader_eq (renderer : String → String)
    (l l' : List RawDoc) (h : l.map eraseHeader = l'.map eraseHeader) :
    l.flatMap (split_row renderer) = l'.flatMap (split_row renderer) := by
  have h1 : ∀ m : List RawDoc,
      m.flatMap (split_row renderer) = (m.map eraseHeader).flatMap (split_row renderer) := by
    intro m
    rw [List.flatMap_map]
    exact (List.flatMap_congr (fun d _ => (split_row_eraseHeader renderer d).symm))
  rw [h1 l, h1 l', h]

/-- C5: every record `split_data` hands to import has exactly the flat shape
`docSource`/`sha`/`docLink`/`content` (the type `SplitDoc`), the optional
`header` column is not present in the chunked output (its value never
influences the output), for every combination of input source frames. -/
theorem split_data_record_shape (renderer : String → String)
    (md rst slack so code issues reg md2 rst2 slack2 so2 code2 issues2 reg2 :
      List (List RawDoc))
    (h1 : md.map (List.map eraseHeader) = md2.map (List.map eraseHeader))
    (h2 : rst.map (List.map eraseHeader) = rst2.map (List.map eraseHeader))
    (h3 : slack.map (List.map eraseHeader) = slack2.map (List.map eraseHeader))
    (h4 : so.map (List.map eraseHeader) = so2.map (List.map eraseHeader))
    (h5 : code.map (List.map eraseHeader) = code2.map (List.map eraseHeader))
    (h6 : issues.map (List.map eraseHeader) = issues2.map (List.map eraseHeader))
    (h7 : reg.map (List.map eraseHeader) = reg2.map (List.map eraseHeader)) :
    split_data renderer md rst slack so code issues reg
      = split_data renderer md2 rst2 slack2 so2 code2 issues2 reg2
    ∧ ∀ r ∈ split_data renderer md rst slack so code issues reg,
        r = SplitDoc.mk r.docSource r.sha r.docLink r.content := by
  constructor
  · rw [split_data_eq_bind, split_data_eq_bind]
    apply flatMap_split_row_of_eraseHeader_eq
    simp only [List.map_append, List.map_flatten]
    rw [h1, h2, h3, h4, h5, h6, h7]
  · intro r _
    cases r
    rfl

/-- Witness for C5: a `code-samples` frame whose `header` column is dropped. -/
theorem split_data_record_shape_witness :
    split_data (fun s => s)
        [[⟨"code-samples", "s1", "l1", "print(1)", some "python"⟩]] [] [] [] [] [] []
      = split_data (fun s => s)
        [[⟨"code-samples", "s1", "l1", "print(1)", none⟩]] [] [] [] [] [] []
    ∧ ∀ r ∈ split_data (fun s => s)
        [[⟨"code-samples", "s1", "l1", "print(1)", some "python"⟩]] [] [] [] [] [] [],
        r = SplitDoc.mk r.docSource r.sha r.docLink r.content :=
  split_data_record_shape (fun s => s)
    [[⟨"code-samples", "s1", "l1", "print(1)", some "python"⟩]] [] [] [] [] [] []
    [[⟨"code-samples", "s1", "l1", "print(1)", none⟩]] [] [] [] [] [] []
    (by decide) rfl rfl rfl rfl rfl rfl

/-- C6 counterexample: the splitter the code instantiates keeps the markdown
document "# A\nfoo\n# B\nbar" as a single chunk spanning both headers, while
header-level splitting (the spec's description) yields two chunks; the
chunking step therefore does not split at markdown header boundaries. -/
theorem chunking_not_header_level_cex :
    rctsSplit "# A\nfoo\n# B\nbar" = ["# A\nfoo\n# B\nbar"]
    ∧ header_level_split "# A\nfoo\n# B\nbar" = ["# A\nfoo", "# B\nbar"]
    ∧ split_data (fun s => s)
        [[⟨"learn", "s1", "l1", "# A\nfoo\n# B\nbar", none⟩]] [] [] [] [] [] []
      = [⟨"learn", "s1", "l1", "# A foo # B bar"⟩] := by
  decide

/-- C6 (amended): the chunking step splits each document's content with the
delegated third-party generic recursive character splitter (and nothing
else): the chunk texts of `split_data` are exactly the splitter's chunks of
each concatenated document, post-processed by the rendering/replace steps. -/
theorem split_data_delegates_splitter (renderer : String → String)
    (md rst slack so code issues reg : List (List RawDoc)) :
    (split_data renderer md rst slack so code issues reg).map SplitDoc.content
      = (md.flatten ++ rst.flatten ++ slack.flatten ++ reg.flatten ++ code.flatten ++
          so.flatten ++ issues.flatten).flatMap
          (fun d => (rctsSplit d.content).map
            (fun c => dropBackslashes (nlToSpace (renderer c)))) := by
  rw [split_data_eq_bind, List.map_flatMap]
  apply List.flatMap_congr
  intro d _
  unfold split_row
  rw [List.map_map]
  rfl

/-- C4 counterexample: a rendered chunk consisting of a lone backslash passes
the chunk-count filter (the document "hello" has exactly one chunk) yet
produces a record with empty content: the filter applied during chunking
does not enforce content non-emptiness. -/
theorem split_data_empty_content_cex :
    split_data (fun _ => "\\") [[⟨"learn", "s1", "l1", "hello", none⟩]] [] [] [] [] [] []
      = [⟨"learn", "s1", "l1", ""⟩]
    ∧ (rctsSplit "hello").length = 1 := by
  decide

/-- C4 (amended): every record returned by `split_data` has non-empty content
provided the renderer (`html2text`) maps every chunk to a string containing
at least one non-backslash character; the single filter applied during
chunking only enforces that each surviving document has at least one chunk. -/
theorem split_data_content_nonempty_of_renderer (renderer : String → String)
    (md rst slack so code issues reg : List (List RawDoc))
    (hren : ∀ s : String, ∃ c ∈ (renderer s).data, c ≠ '\\') :
    ∀ r ∈ split_data renderer md rst slack so code issues reg, r.content ≠ "" := by
  intro r hr
  rw [split_data_eq_bind, List.mem_flatMap] at hr
  obtain ⟨d, _, hr⟩ := hr
  unfold split_row at hr
  rw [List.mem_map] at hr
  obtain ⟨piece, _, rfl⟩ := hr
  obtain ⟨ch, hch, hne⟩ := hren piece
  show dropBackslashes (nlToSpace (renderer piece)) ≠ ""
  have hmem2 : (if ch = '\n' then ' ' else ch) ∈ (nlToSpace (renderer piece)).data :=
    List.mem_map_of_mem _ hch
  have hne2 : (if ch = '\n' then ' ' else ch) ≠ '\\' := by
    by_cases h : ch = '\n' <;> simp [h, hne]
  have hmem3 : (if ch = '\n' then ' ' else ch) ∈ (dropBackslashes (nlToSpace (renderer piece))).data :=
    List.mem_filter.mpr ⟨hmem2, by simpa using hne2⟩
  intro hempty
  rw [hempty] at hmem3
  exact absurd hmem3 (List.not_mem_nil _)

/-- Witness for the amended C4 at a concrete renderer. -/
theorem split_data_content_nonempty_of_renderer_witness :
    SplitDoc.content ⟨"learn", "s1", "l1", "x"⟩ ≠ "" :=
  split_data_content_nonempty_of_renderer (fun _ => "x")
    [[⟨"learn", "s1", "l1", "hello", none⟩]] [] [] [] [] [] []
    (fun _ => show ∃ c ∈ ("x" : String).data, c ≠ '\\' from ⟨'x', by decide, by decide⟩)
    ⟨"learn", "s1", "l1", "x"⟩ (by decide)

/-- C10: every content value in the dataframe returned by `split_data`
contains no newline and no backslash character, for every renderer and every
input. -/
theorem split_data_content_chars (renderer : String → String)
    (md rst slack so code issues reg : List (List RawDoc)) :
    ∀ r ∈ split_data renderer md rst slack so code issues reg,
      ∀ c ∈ r.content.data, c ≠ '\n' ∧ c ≠ '\\' := by
  intro r hr c hc
  rw [split_data_eq_bind, List.mem_flatMap] at hr
  obtain ⟨d, _, hr⟩ := hr
  unfold split_row at hr
  rw [List.mem_map] at hr
  obtain ⟨piece, _, rfl⟩ := hr
  have hc2 := List.mem_filter.mp hc
  constructor
  · obtain ⟨orig, _, rfl⟩ := List.mem_map.mp hc2.1
    by_cases h : orig = '\n' <;> simp [h]
  · simpa using hc2.2

/-- Witness for C10 at a concrete input. -/
theorem split_data_content_chars_witness :
    'h' ≠ '\n' ∧ 'h' ≠ '\\' :=
  split_data_content_chars (fun s => s)
    [[⟨"learn", "s1", "l1", "hello", none⟩]] [] [] [] [] [] []
    ⟨"learn", "s1", "l1", "hello"⟩ (by decide) 'h' (by decide)

/-- C7 counterexample: on a snapshot of two messages in one thread,
`extract_slack` returns one aggregated, reformatted record, not the two
snapshot rows: the executing task is not mere snapshot loading. -/
theorem extract_slack_not_snapshot_only_cex :
    (extract_slack (fun n => toString n) (fun s => s) slackSrcEx [slackM1, slackM2]).length = 1
    ∧ (extract_snapshot_only [slackM1, slackM2]).length = 2
    ∧ extract_slack (fun n => toString n) (fun s => s) slackSrcEx [slackM1, slackM2]
      = [{ docSource := "troubleshooting",
           sha := "# slack: Airflow\n\n## troubleshooting\n\n### [3] <@u2>\n\nworld\n### [5] <@u1>\n\nhello",
           docLink := "https://app.slack.com/client/TCQ/CCQ/p50",
           content := "# slack: Airflow\n\n## troubleshooting\n\n### [3] <@u2>\n\nworld\n### [5] <@u1>\n\nhello",
           header := none }] := by
  decide

/-- C7 (amended): the markdown, rst, python and registry extract tasks only
read their snapshot and return it; the stack overflow and issues tasks
additionally set a row-wise content-hash `sha`; `extract_slack` alone also
runs source-specific transformation (its output differs from snapshot
loading already in record count). -/
theorem extract_tasks_snapshot_loading (uuidRow : RawDoc → String)
    (snapshot : List RawDoc) :
    extract_github_markdown snapshot = snapshot
    ∧ extract_github_rst snapshot = snapshot
    ∧ extract_github_python snapshot = snapshot
    ∧ extract_registry snapshot = snapshot
    ∧ extract_stack_overflow uuidRow snapshot
        = snapshot.map (fun r => { r with sha := uuidRow r })
    ∧ extract_github_issues uuidRow snapshot
        = snapshot.map (fun r => { r with sha := uuidRow r })
    ∧ (extract_slack (fun n => toString n) (fun s => s) slackSrcEx
          (extract_snapshot_only [slackM1, slackM2])).length
        ≠ (extract_snapshot_only [slackM1, slackM2]).length :=
  ⟨rfl, rfl, rfl, rfl, rfl, rfl, by decide⟩

/-- C9: in `extract_slack`, a message with missing `thread_ts` is the root of
its own thread (`thread_ts` defaults to the message's own `ts`, visible in
`Option.getD` below); the deduplicated messages are grouped into one output
record per distinct thread key; and within each record the message texts are
concatenated in ascending timestamp order. -/
theorem extract_slack_thread_grouping (tsFmt : Nat → String) (uuidGen : String → String)
    (source : SlackSource) (snapshot : List SlackMsg) :
    (extract_slack tsFmt uuidGen source snapshot).length
        = (((firstDedup snapshot).map (fun r => r.thread_ts.getD r.ts)).toFinset).card
    ∧ (∀ rec ∈ extract_slack tsFmt uuidGen source snapshot, ∃ k : Nat,
        (∃ r ∈ firstDedup snapshot, r.thread_ts.getD r.ts = k)
        ∧ ∃ msgs : List SlackMsg,
            msgs.Perm (((firstDedup snapshot).map
                (fun r => { r with thread_ts := some (r.thread_ts.getD r.ts) })).filter
                  (fun r => r.thread_ts.getD r.ts = k))
            ∧ msgs.Sorted (fun a b => a.ts ≤ b.ts)
            ∧ rec.content = message_md_format source.team_name source.channel_name
                (String.intercalate "\n"
                  (msgs.map (fun r => reply_md_format (tsFmt r.ts) r.user r.text))))
    ∧ (∀ k : Nat, (∃ r ∈ firstDedup snapshot, r.thread_ts.getD r.ts = k) →
        ∃ rec ∈ extract_slack tsFmt uuidGen source snapshot,
          rec.docLink = link_format source.team_id source.channel_id
            (dotRemoved (floatStr k))) := by
  have hrowsmap : (slack_rows snapshot).map (fun r => r.thread_ts.getD r.ts)
      = (firstDedup snapshot).map (fun r => r.thread_ts.getD r.ts) := by
    unfold slack_rows
    rw [List.map_map]
    rfl
  have hps : (slack_sorted snapshot).Perm (slack_rows snapshot) :=
    List.perm_insertionSort _ _
  have hss : List.Sorted (fun a b : SlackMsg => a.ts ≤ b.ts) (slack_sorted snapshot) :=
    List.sorted_insertionSort _ _
  have hkeysmem : ∀ k : Nat, k ∈ slack_keys snapshot ↔
      ∃ r ∈ firstDedup snapshot, r.thread_ts.getD r.ts = k := by
    intro k
    unfold slack_keys
    rw [List.mem_insertionSort, mem_firstDedup,
      (hps.map (fun r => r.thread_ts.getD r.ts)).mem_iff, hrowsmap]
    exact List.mem_map
  refine ⟨?_, ?_, ?_⟩
  · show ((slack_keys snapshot).map _).length = _
    rw [List.length_map]
    unfold slack_keys
    rw [List.length_insertionSort, length_firstDedup,
      List.toFinset_eq_of_perm _ _ (hps.map (fun r => r.thread_ts.getD r.ts)), hrowsmap]
  · intro rec hrec
    obtain ⟨k, hk, rfl⟩ := List.mem_map.mp hrec
    refine ⟨k, (hkeysmem k).mp hk,
      (slack_sorted snapshot).filter (fun r => r.thread_ts.getD r.ts = k), ?_, ?_, rfl⟩
    · have hrows : slack_rows snapshot = (firstDedup snapshot).map
          (fun r => { r with thread_ts := some (r.thread_ts.getD r.ts) }) := rfl
      rw [← hrows]
      exact hps.filter _
    · exact hss.filter _
  · intro k hk
    exact ⟨slack_record tsFmt uuidGen source snapshot k,
      List.mem_map_of_mem _ ((hkeysmem k).mpr hk), rfl⟩

/-- Witness for C9 at a concrete snapshot: two messages, one thread (the
rootless reply defaults into the root's thread), so one output record. -/
theorem extract_slack_thread_grouping_witness :
    (extract_slack (fun n => toString n) (fun s => s) slackSrcEx [slackM1, slackM2]).length
        = (((firstDedup [slackM1, slackM2]).map
            (fun r => r.thread_ts.getD r.ts)).toFinset).card
    ∧ (((firstDedup [slackM1, slackM2]).map
        (fun r => r.thread_ts.getD r.ts)).toFinset).card = 1 :=
  ⟨(extract_slack_thread_grouping (fun n => toString n) (fun s => s) slackSrcEx
      [slackM1, slackM2]).1, by decide⟩

end AskAstroLoad
